import Mathlib

/-!
Verification development for the field-indices pipeline.

The pipeline queries a catalogue of Sentinel-2 scenes for a field parcel,
rejects scenes that are blackfilled or too cloudy at the parcel level,
resamples and masks the kept scenes, computes the NDVI, NDRE and EVI
spectral indices, and exposes the kept series together with a per-scene
disposition table to export and plotting code.

Rasters are embedded as flat lists of pixel values; a band carries its
spatial resolution.  Timestamps are embedded as natural numbers counting
seconds, so that truncation of a timestamp to minute precision becomes
division by 60.  Rational numbers stand for the floating-point reflectance
values; the reflectance no-data sentinel is 0, the classification no-data
code is 0, matching the Sentinel-2 Level-2A conventions the code relies on.
-/

/-- Reflectance no-data sentinel for Sentinel-2 Level-2A bands. -/
def band_nodata : ℚ := 0

/-- Reserved no-data code of the scene classification layer. -/
def scl_nodata : Nat := 0

/-- The classification codes treated as invalid by the code
(cloud shadow, cloud medium and high probability, thin cirrus, snow or ice):
the literal list [3, 8, 9, 10, 11] passed to mask_clouds_and_shadows and
get_cloudy_pixel_percentage in the source. -/
def scl_cloud_classes : List Nat := [3, 8, 9, 10, 11]

/-- One raster band: its spatial resolution and its pixel grid, flattened. -/
structure RasterBand (α : Type) where
  resolution : Nat
  pixels : List α
deriving Repr, DecidableEq

/-- A Sentinel-2 scene: named reflectance (and, later, index) bands plus the
scene classification layer. -/
structure Sentinel2 where
  bands : List (String × RasterBand ℚ)
  scl : RasterBand Nat
deriving Repr, DecidableEq

/-- Modelled from the spec: the Scene Classification Mask.  Given the
classification codes and the set of codes considered invalid, the mask is
true where the code is not in the invalid set; pixels carrying the reserved
no-data code are always invalid. -/
def scl_mask (invalid : List Nat) (codes : List Nat) : List Bool :=
  codes.map (fun c => !(invalid.contains c) && !(c == scl_nodata))

/-- Pixels of a reflectance band after applying a validity mask: where the
mask is false the pixel is set to the reflectance no-data sentinel. -/
def maskPixels (m : List Bool) (ps : List ℚ) : List ℚ :=
  List.zipWith (fun keep p => if keep then p else band_nodata) m ps

/-- Classification codes after applying a validity mask: where the mask is
false the code is set to the reserved no-data code. -/
def maskCodes (m : List Bool) (cs : List Nat) : List Nat :=
  List.zipWith (fun keep c => if keep then c else scl_nodata) m cs

/-- Modelled from the spec: eodal mask_clouds_and_shadows.  Derives the
validity mask from the classification band and sets every pixel of every
band where the mask is false to the no-data sentinel of that band. -/
def mask_clouds_and_shadows (invalid : List Nat) (s : Sentinel2) : Sentinel2 :=
  let m := scl_mask invalid s.scl.pixels
  { bands := s.bands.map
      (fun nb => (nb.1, { resolution := nb.2.resolution,
                          pixels := maskPixels m nb.2.pixels })),
    scl := { resolution := s.scl.resolution,
             pixels := maskCodes m s.scl.pixels } }

/-- Modelled from the spec: eodal resample of one band, nearest-neighbour.
A band already at the target resolution is left untouched; otherwise the
grid is rebuilt at the target resolution, each new pixel taking the value of
the nearest source pixel center. -/
def resampleBand {α : Type} (nod : α) (target : Nat) (b : RasterBand α) :
    RasterBand α :=
  if b.resolution = target then b
  else
    { resolution := target,
      pixels := (List.range (b.pixels.length * b.resolution / target)).map
        (fun i => b.pixels.getD ((i * target + target / 2) / b.resolution) nod) }

/-- Modelled from the spec: eodal resample of a scene, bringing every band
and the classification layer to the target resolution. -/
def Sentinel2.resample (s : Sentinel2) (target : Nat) : Sentinel2 :=
  { bands := s.bands.map (fun nb => (nb.1, resampleBand band_nodata target nb.2)),
    scl := resampleBand scl_nodata target s.scl }

/-- The scene modifier of the source: resample the scene to the target
resolution, then mask clouds, shadows and snow with the hard-coded
class list [3, 8, 9, 10, 11]. -/
def preprocess_sentinel2_scenes (ds : Sentinel2) (target_resolution : Nat) :
    Sentinel2 :=
  mask_clouds_and_shadows scl_cloud_classes (ds.resample target_resolution)

/-- Modelled from the spec: eodal is_blackfilled, true when every pixel of
every band equals the reflectance no-data sentinel. -/
def Sentinel2.is_blackfilled (s : Sentinel2) : Bool :=
  s.bands.all (fun nb => nb.2.pixels.all (fun p => p == band_nodata))

/-- Modelled from the spec: eodal get_cloudy_pixel_percentage, the share of
invalid pixels (cloud classes and no-data) over the parcel, in percent. -/
def Sentinel2.get_cloudy_pixel_percentage (s : Sentinel2)
    (cloud_classes : List Nat) : ℚ :=
  let m := scl_mask cloud_classes s.scl.pixels
  100 * ((m.count false : ℚ) / (m.length : ℚ))

/-- Band lookup by name; a missing band yields an empty grid. -/
def Sentinel2.getBand (s : Sentinel2) (name : String) : RasterBand ℚ :=
  match s.bands.find? (fun nb => nb.1 == name) with
  | some nb => nb.2
  | none => { resolution := 0, pixels := [] }

/-- Pixel list of a named band. -/
def Sentinel2.getBandPixels (s : Sentinel2) (name : String) : List ℚ :=
  (s.getBand name).pixels

/-- Append a derived band to a scene, keeping the original bands. -/
def Sentinel2.addBand (s : Sentinel2) (name : String) (b : RasterBand ℚ) :
    Sentinel2 :=
  { s with bands := s.bands ++ [(name, b)] }

/-- Modelled from the spec: one NDVI pixel, (NIR - RED) / (NIR + RED); a
no-data input or a zero denominator yields the no-data sentinel. -/
def ndvi_px (nir red : ℚ) : ℚ :=
  if nir = band_nodata ∨ red = band_nodata ∨ nir + red = 0 then band_nodata
  else (nir - red) / (nir + red)

/-- Modelled from the spec: one NDRE pixel, (NIR - RED_EDGE) / (NIR +
RED_EDGE); a no-data input or a zero denominator yields the sentinel. -/
def ndre_px (nir red_edge : ℚ) : ℚ :=
  if nir = band_nodata ∨ red_edge = band_nodata ∨ nir + red_edge = 0 then
    band_nodata
  else (nir - red_edge) / (nir + red_edge)

/-- Modelled from the spec: one EVI pixel,
2.5 * (NIR - RED) / (NIR + 6 RED - 7.5 BLUE + 1); a no-data input or a zero
denominator yields the sentinel. -/
def evi_px (blue red nir : ℚ) : ℚ :=
  if blue = band_nodata ∨ red = band_nodata ∨ nir = band_nodata ∨
      nir + 6 * red - (7.5 : ℚ) * blue + 1 = 0 then band_nodata
  else (2.5 : ℚ) * (nir - red) / (nir + 6 * red - (7.5 : ℚ) * blue + 1)

/-- Three-list pointwise zip, truncating at the shortest list. -/
def zip3With {α β γ δ : Type} (f : α → β → γ → δ) :
    List α → List β → List γ → List δ
  | a :: as, b :: bs, c :: cs => f a b c :: zip3With f as bs cs
  | _, _, _ => []

/-- Modelled from the spec: calc_si NDVI, adding the NDVI band computed from
the nir and red bands. -/
def calc_si_NDVI (s : Sentinel2) : Sentinel2 :=
  s.addBand "NDVI"
    { resolution := (s.getBand "nir").resolution,
      pixels := List.zipWith ndvi_px (s.getBandPixels "nir")
        (s.getBandPixels "red") }

/-- Modelled from the spec: calc_si NDRE, adding the NDRE band computed from
the nir and red edge bands. -/
def calc_si_NDRE (s : Sentinel2) : Sentinel2 :=
  s.addBand "NDRE"
    { resolution := (s.getBand "nir").resolution,
      pixels := List.zipWith ndre_px (s.getBandPixels "nir")
        (s.getBandPixels "red_edge") }

/-- Modelled from the spec: calc_si EVI, adding the EVI band computed from
the blue, red and nir bands. -/
def calc_si_EVI (s : Sentinel2) : Sentinel2 :=
  s.addBand "EVI"
    { resolution := (s.getBand "nir").resolution,
      pixels := zip3With evi_px (s.getBandPixels "blue")
        (s.getBandPixels "red") (s.getBandPixels "nir") }

/-- The three calc_si calls of the source, in their order. -/
def calc_indices (s : Sentinel2) : Sentinel2 :=
  calc_si_EVI (calc_si_NDRE (calc_si_NDVI s))

/-- One row of the mapper metadata table: one candidate scene returned by
the catalogue.  Timestamps are seconds; the sensing date is a day number. -/
structure MetaRow where
  product_uri : String
  sensing_time : Nat
  sensing_date : Nat
  scene_used : String
deriving Repr, DecidableEq

/-- Truncation of a timestamp to minute precision, the embedding of
strftime with format string year-month-day hour:minute. -/
def minuteKey (t : Nat) : Nat := t / 60

/-- The metadata update of the source: every row whose sensing time matches
the scene identifier at minute precision gets the given disposition. -/
def markRows (rows : List MetaRow) (sid : Nat) (status : String) :
    List MetaRow :=
  rows.map (fun r =>
    if minuteKey r.sensing_time == minuteKey sid then
      { r with scene_used := status }
    else r)

/-- The mapper state relevant to the core loop: the metadata table and the
loaded scene collection, keyed by acquisition timestamp. -/
structure Mapper where
  metadata : List MetaRow
  data : List (Nat × Sentinel2)
deriving Repr

/-- The per-scene decision sequence of the source loop: blackfill first,
then the parcel-level cloud fraction against the threshold, else used. -/
def classify (thr : ℚ) (s : Sentinel2) : String :=
  if s.is_blackfilled then "No [blackfill]"
  else if s.get_cloudy_pixel_percentage scl_cloud_classes > thr then
    "No [clouds]"
  else "yes"

/-- The scene loop of extract_s2_data: walks the loaded scenes, marks
rejected scenes in the metadata and collects their identifiers for deletion,
and computes the spectral indices in place on the kept scenes.  Returns the
updated metadata, the deletion list and the updated scene collection. -/
def sceneLoop (thr : ℚ) :
    List (Nat × Sentinel2) → List MetaRow → List Nat →
    List MetaRow × List Nat × List (Nat × Sentinel2)
  | [], md, dels => (md, dels, [])
  | (sid, scene) :: rest, md, dels =>
    if scene.is_blackfilled then
      let r := sceneLoop thr rest (markRows md sid "No [blackfill]")
        (dels ++ [sid])
      (r.1, r.2.1, (sid, scene) :: r.2.2)
    else if scene.get_cloudy_pixel_percentage scl_cloud_classes > thr then
      let r := sceneLoop thr rest (markRows md sid "No [clouds]")
        (dels ++ [sid])
      (r.1, r.2.1, (sid, scene) :: r.2.2)
    else
      let r := sceneLoop thr rest md dels
      (r.1, r.2.1, (sid, calc_indices scene) :: r.2.2)

/-- The quality-filter stage of extract_s2_data: initialise every metadata
row to used, run the scene loop, then delete the collected scenes from the
collection. -/
def extract_s2_data (thr : ℚ) (m : Mapper) : Mapper :=
  let md0 := m.metadata.map (fun r => { r with scene_used := "yes" })
  let r := sceneLoop thr m.data md0 []
  { metadata := r.1,
    data := r.2.2.filter (fun e => !(r.2.1.contains e.1)) }

/-- The sensing dates whose disposition column still says used, as read by
the export and plotting code. -/
def sensing_dates_with_scene_used (md : List MetaRow) : List Nat :=
  (md.filter (fun r => r.scene_used == "yes")).map (fun r => r.sensing_date)

/-- Date formatting stand-in for strftime with the year-month-day format. -/
def strfdate (d : Nat) : String := toString d

/-- The date label attached to the scene at a given position of the kept
series: the element at that position of the used-date list, or the literal
No Date when the position is out of range. -/
def sensing_date_string (md : List MetaRow) (idx : Nat) : String :=
  let l := sensing_dates_with_scene_used md
  if idx < l.length then strfdate (l.getD idx 0) else "No Date"

/-- The date labels produced while exporting the kept series: one per
position of the kept collection, associated purely by position. -/
def geotiff_dates (res : List (Nat × Sentinel2)) (md : List MetaRow) :
    List String :=
  (List.range res.length).map (fun idx => sensing_date_string md idx)

/-- Outcome of processing one parcel, as driven by the top-level loop:
the kept scene collection, the export calls made, and whether plotting was
attempted (the source guards the plot call with a non-emptiness test). -/
structure ParcelRun where
  kept : List (Nat × Sentinel2)
  exports : List String
  plotted : Bool
deriving Repr

/-- The per-shapefile body of process_shapefiles_in_subfolders: extract the
data, export each kept scene, and plot only when the kept collection is
non-empty. -/
def process_parcel (thr : ℚ) (m : Mapper) : ParcelRun :=
  let res := extract_s2_data thr m
  { kept := res.data,
    exports := geotiff_dates res.data res.metadata,
    plotted := decide (res.data ≠ []) }

/-- Example scene with one of two parcel pixels invalid (code 8): parcel
cloud percentage 50. -/
def exSceneCloudy : Sentinel2 :=
  { bands := [("nir", { resolution := 10, pixels := [1, 2] }),
              ("red", { resolution := 10, pixels := [1, 1] })],
    scl := { resolution := 10, pixels := [4, 8] } }

/-- Example scene whose bands are entirely no-data. -/
def exSceneBlack : Sentinel2 :=
  { bands := [("nir", { resolution := 10, pixels := [0] })],
    scl := { resolution := 10, pixels := [0] } }

/-- Example scene with clear pixels only. -/
def exSceneClear : Sentinel2 :=
  { bands := [("nir", { resolution := 10, pixels := [1, 2] }),
              ("red", { resolution := 10, pixels := [1, 1] })],
    scl := { resolution := 10, pixels := [4, 4] } }

/-- Example scene carrying the four reflectance bands the index engine
reads; the second pixel of the nir band is no-data. -/
def exSceneIdx : Sentinel2 :=
  { bands := [("nir", { resolution := 10, pixels := [2, 0] }),
              ("red", { resolution := 10, pixels := [1, 1] }),
              ("red_edge", { resolution := 10, pixels := [1, 1] }),
              ("blue", { resolution := 10, pixels := [1, 1] })],
    scl := { resolution := 10, pixels := [4, 4] } }

/-- Example metadata row whose disposition is used. -/
def exRow : MetaRow :=
  { product_uri := "S2A", sensing_time := 61, sensing_date := 5,
    scene_used := "yes" }

/-- Example metadata row whose sensing time matches no scene of the
examples at minute precision. -/
def exRowFar : MetaRow :=
  { product_uri := "S2B", sensing_time := 6000, sensing_date := 9,
    scene_used := "yes" }

/-- Example mapper with two loaded scenes in ascending timestamp order. -/
def exMapper : Mapper :=
  { metadata := [exRow],
    data := [(60, exSceneClear), (120, exSceneCloudy)] }

/-- Example mapper for a catalogue query returning zero candidates. -/
def exMapperEmpty : Mapper := { metadata := [], data := [] }

lemma zipWith_getD {α β γ : Type} (f : α → β → γ) (da : α) (db : β) (dc : γ) :
    ∀ (as : List α) (bs : List β) (i : Nat),
      i < (List.zipWith f as bs).length →
      (List.zipWith f as bs).getD i dc = f (as.getD i da) (bs.getD i db)
  | _ :: _, _ :: _, 0, _ => rfl
  | a :: as, b :: bs, i + 1, h => by
    simpa using zipWith_getD f da db dc as bs i (by simpa using h)

lemma zip3With_getD {α β γ δ : Type} (f : α → β → γ → δ)
    (da : α) (db : β) (dc : γ) (dd : δ) :
    ∀ (as : List α) (bs : List β) (cs : List γ) (i : Nat),
      i < (zip3With f as bs cs).length →
      (zip3With f as bs cs).getD i dd =
        f (as.getD i da) (bs.getD i db) (cs.getD i dc)
  | _ :: _, _ :: _, _ :: _, 0, _ => rfl
  | a :: as, b :: bs, c :: cs, i + 1, h => by
    simpa [zip3With] using zip3With_getD f da db dc dd as bs cs i
      (by simpa [zip3With] using h)

lemma zip3With_length {α β γ δ : Type} (f : α → β → γ → δ) :
    ∀ (as : List α) (bs : List β) (cs : List γ),
      (zip3With f as bs cs).length =
        min (min as.length bs.length) cs.length
  | [], [], [] => rfl
  | [], [], _ :: _ => rfl
  | [], _ :: _, [] => rfl
  | [], _ :: _, _ :: _ => rfl
  | _ :: _, [], [] => rfl
  | _ :: _, [], _ :: _ => rfl
  | _ :: _, _ :: _, [] => by simp [zip3With]
  | a :: as, b :: bs, c :: cs => by
    simp [zip3With, zip3With_length f as bs cs]
    omega

lemma zipWith_mask_idem {α : Type} (d : α) (m : List Bool) (xs : List α) :
    List.zipWith (fun keep x => if keep then x else d) m
      (List.zipWith (fun keep x => if keep then x else d) m xs) =
    List.zipWith (fun keep x => if keep then x else d) m xs := by
  induction m generalizing xs with
  | nil => rfl
  | cons k m ih =>
    cases xs with
    | nil => rfl
    | cons x xs =>
      cases k <;> simp [ih]

lemma maskPixels_idem (m : List Bool) (ps : List ℚ) :
    maskPixels m (maskPixels m ps) = maskPixels m ps :=
  zipWith_mask_idem band_nodata m ps

lemma maskCodes_idem (m : List Bool) (cs : List Nat) :
    maskCodes m (maskCodes m cs) = maskCodes m cs :=
  zipWith_mask_idem scl_nodata m cs

lemma scl_mask_maskCodes (invalid : List Nat) (cs : List Nat) :
    scl_mask invalid (maskCodes (scl_mask invalid cs) cs) =
      scl_mask invalid cs := by
  induction cs with
  | nil => rfl
  | cons c cs ih =>
    simp only [scl_mask, maskCodes, List.map_cons, List.zipWith_cons_cons] at ih ⊢
    by_cases hc : c ∈ invalid
    · simpa [hc, scl_nodata] using ih
    · by_cases h0 : c = 0
      · simpa [hc, h0, scl_nodata] using ih
      · simpa [hc, h0, scl_nodata] using ih

lemma mask_idem (invalid : List Nat) (s : Sentinel2) :
    mask_clouds_and_shadows invalid (mask_clouds_and_shadows invalid s) =
      mask_clouds_and_shadows invalid s := by
  cases s with
  | mk bands scl =>
    cases scl with
    | mk res cs =>
      simp only [mask_clouds_and_shadows, List.map_map]
      refine congrArg₂ Sentinel2.mk ?_ ?_
      · refine List.map_congr_left ?_
        intro nb _
        simp [scl_mask_maskCodes, maskPixels_idem]
      · simp [scl_mask_maskCodes, maskCodes_idem]

lemma resampleBand_resolution {α : Type} (nod : α) (t : Nat)
    (b : RasterBand α) : (resampleBand nod t b).resolution = t := by
  unfold resampleBand
  split
  · assumption
  · rfl

lemma resampleBand_of_res_eq {α : Type} (nod : α) (t : Nat)
    (b : RasterBand α) (h : b.resolution = t) : resampleBand nod t b = b := by
  unfold resampleBand
  exact if_pos h

lemma resample_of_target (s : Sentinel2) (t : Nat)
    (h1 : ∀ nb ∈ s.bands, nb.2.resolution = t)
    (h2 : s.scl.resolution = t) : s.resample t = s := by
  cases s with
  | mk bands scl =>
    simp only [Sentinel2.resample]
    refine congrArg₂ Sentinel2.mk ?_ (resampleBand_of_res_eq _ _ _ h2)
    have : ∀ nb ∈ bands,
        (fun nb : String × RasterBand ℚ =>
          (nb.1, resampleBand band_nodata t nb.2)) nb = nb := by
      intro nb hnb
      simp [resampleBand_of_res_eq _ _ _ (h1 nb hnb)]
    calc bands.map _ = bands.map id := List.map_congr_left this
    _ = bands := List.map_id bands

/-- C6: the Resampling and Masking Stage is idempotent: applying the stage
to its own output yields a bit-identical result. -/
theorem C6_preprocess_idempotent (s : Sentinel2) (t : Nat) :
    preprocess_sentinel2_scenes (preprocess_sentinel2_scenes s t) t =
      preprocess_sentinel2_scenes s t := by
  have hres :
      (mask_clouds_and_shadows scl_cloud_classes (s.resample t)).resample t =
        mask_clouds_and_shadows scl_cloud_classes (s.resample t) := by
    apply resample_of_target
    · intro nb hnb
      simp only [mask_clouds_and_shadows, List.mem_map] at hnb
      obtain ⟨nb0, hnb0, rfl⟩ := hnb
      simp only [Sentinel2.resample, List.mem_map] at hnb0
      obtain ⟨nb1, _, rfl⟩ := hnb0
      exact resampleBand_resolution band_nodata t nb1.2
    · exact resampleBand_resolution scl_nodata t s.scl
  simp only [preprocess_sentinel2_scenes]
  rw [hres, mask_idem]

lemma zipWith_mask_getD_of_false {α : Type} (d : α) (m : List Bool)
    (xs : List α) (i : Nat)
    (hi : i < (List.zipWith (fun keep x => if keep then x else d) m xs).length)
    (hm : m.getD i true = false) :
    (List.zipWith (fun keep x => if keep then x else d) m xs).getD i d = d := by
  induction m generalizing xs i with
  | nil => simp at hi
  | cons k m ih =>
    cases xs with
    | nil => simp at hi
    | cons x xs =>
      cases i with
      | zero => simp_all
      | succ i =>
        simp only [List.zipWith_cons_cons, List.getD_cons_succ] at *
        exact ih xs i (by simpa using hi) hm

/-- C5: after the Resampling and Masking Stage, every pixel where the
validity mask is false has every band (the classification layer included)
equal to the no-data sentinel of that band. -/
theorem C5_masking_postcondition (s : Sentinel2) (t : Nat) :
    (∀ nb ∈ (preprocess_sentinel2_scenes s t).bands, ∀ i : Nat,
      i < nb.2.pixels.length →
      (scl_mask scl_cloud_classes ((s.resample t).scl.pixels)).getD i true =
        false →
      nb.2.pixels.getD i 0 = band_nodata)
    ∧ (∀ i : Nat, i < (preprocess_sentinel2_scenes s t).scl.pixels.length →
      (scl_mask scl_cloud_classes ((s.resample t).scl.pixels)).getD i true =
        false →
      (preprocess_sentinel2_scenes s t).scl.pixels.getD i 0 = scl_nodata) := by
  constructor
  · intro nb hnb i hi hm
    simp only [preprocess_sentinel2_scenes, mask_clouds_and_shadows,
      List.mem_map] at hnb
    obtain ⟨nb0, _, rfl⟩ := hnb
    simp only at hi ⊢
    have := zipWith_mask_getD_of_false band_nodata
      (scl_mask scl_cloud_classes ((s.resample t).scl.pixels))
      nb0.2.pixels i (by simpa [maskPixels] using hi) hm
    simpa [maskPixels] using this
  · intro i hi hm
    simp only [preprocess_sentinel2_scenes, mask_clouds_and_shadows] at hi ⊢
    have := zipWith_mask_getD_of_false scl_nodata
      (scl_mask scl_cloud_classes ((s.resample t).scl.pixels))
      ((s.resample t).scl.pixels) i (by simpa [maskCodes] using hi) hm
    simpa [maskCodes] using this

lemma find?_addBand_of_ne (s : Sentinel2) (n m : String) (b : RasterBand ℚ)
    (h : m ≠ n) :
    (s.addBand n b).bands.find? (fun nb => nb.1 == m) =
      s.bands.find? (fun nb => nb.1 == m) := by
  simp only [Sentinel2.addBand, List.find?_append]
  cases hf : s.bands.find? (fun nb => nb.1 == m) with
  | some nb => rfl
  | none =>
    simp [List.find?, beq_eq_false_iff_ne.mpr (Ne.symm h)]

lemma getBandPixels_addBand_ne (s : Sentinel2) (n m : String)
    (b : RasterBand ℚ) (h : m ≠ n) :
    (s.addBand n b).getBandPixels m = s.getBandPixels m := by
  simp only [Sentinel2.getBandPixels, Sentinel2.getBand,
    find?_addBand_of_ne s n m b h]

lemma getBandPixels_addBand_self (s : Sentinel2) (n : String)
    (b : RasterBand ℚ)
    (h : s.bands.find? (fun nb => nb.1 == n) = none) :
    (s.addBand n b).getBandPixels n = b.pixels := by
  simp only [Sentinel2.getBandPixels, Sentinel2.getBand, Sentinel2.addBand,
    List.find?_append, h]
  simp [List.find?]

lemma calc_indices_NDVI_pixels (s : Sentinel2)
    (hv : s.bands.find? (fun nb => nb.1 == "NDVI") = none) :
    (calc_indices s).getBandPixels "NDVI" =
      List.zipWith ndvi_px (s.getBandPixels "nir") (s.getBandPixels "red") := by
  simp only [calc_indices, calc_si_EVI, calc_si_NDRE]
  rw [getBandPixels_addBand_ne _ _ _ _ (by decide),
    getBandPixels_addBand_ne _ _ _ _ (by decide)]
  exact getBandPixels_addBand_self _ _ _ hv

lemma calc_indices_NDRE_pixels (s : Sentinel2)
    (hr : s.bands.find? (fun nb => nb.1 == "NDRE") = none) :
    (calc_indices s).getBandPixels "NDRE" =
      List.zipWith ndre_px (s.getBandPixels "nir")
        (s.getBandPixels "red_edge") := by
  simp only [calc_indices, calc_si_EVI]
  rw [getBandPixels_addBand_ne _ _ _ _ (by decide)]
  simp only [calc_si_NDRE]
  rw [getBandPixels_addBand_self _ _ _ ?_]
  · simp only [calc_si_NDVI]
    rw [getBandPixels_addBand_ne _ _ _ _ (by decide),
      getBandPixels_addBand_ne _ _ _ _ (by decide)]
  · simp only [calc_si_NDVI]
    rw [find?_addBand_of_ne _ _ _ _ (by decide)]
    exact hr

lemma calc_indices_EVI_pixels (s : Sentinel2)
    (he : s.bands.find? (fun nb => nb.1 == "EVI") = none) :
    (calc_indices s).getBandPixels "EVI" =
      zip3With evi_px (s.getBandPixels "blue") (s.getBandPixels "red")
        (s.getBandPixels "nir") := by
  simp only [calc_indices, calc_si_EVI]
  rw [getBandPixels_addBand_self _ _ _ ?_]
  · simp only [calc_si_NDRE, calc_si_NDVI]
    rw [getBandPixels_addBand_ne _ _ _ _ (by decide),
      getBandPixels_addBand_ne _ _ _ _ (by decide),
      getBandPixels_addBand_ne _ _ _ _ (by decide),
      getBandPixels_addBand_ne _ _ _ _ (by decide),
      getBandPixels_addBand_ne _ _ _ _ (by decide),
      getBandPixels_addBand_ne _ _ _ _ (by decide)]
  · simp only [calc_si_NDRE, calc_si_NDVI]
    rw [find?_addBand_of_ne _ _ _ _ (by decide),
      find?_addBand_of_ne _ _ _ _ (by decide)]
    exact he

/-- C4: for every pixel of a kept scene, if any input band required by an
index is no-data at that pixel, or the denominator of the index is zero
(for NDVI: NIR + RED = 0), the output pixel of that index is the no-data
sentinel. -/
theorem C4_index_nodata_policy (s : Sentinel2) (i : Nat)
    (hv : s.bands.find? (fun nb => nb.1 == "NDVI") = none)
    (hr : s.bands.find? (fun nb => nb.1 == "NDRE") = none)
    (he : s.bands.find? (fun nb => nb.1 == "EVI") = none) :
    (i < ((calc_indices s).getBandPixels "NDVI").length →
      ((s.getBandPixels "nir").getD i 0 = band_nodata ∨
       (s.getBandPixels "red").getD i 0 = band_nodata ∨
       (s.getBandPixels "nir").getD i 0 + (s.getBandPixels "red").getD i 0
         = 0) →
      ((calc_indices s).getBandPixels "NDVI").getD i 0 = band_nodata)
    ∧ (i < ((calc_indices s).getBandPixels "NDRE").length →
      ((s.getBandPixels "nir").getD i 0 = band_nodata ∨
       (s.getBandPixels "red_edge").getD i 0 = band_nodata ∨
       (s.getBandPixels "nir").getD i 0 +
         (s.getBandPixels "red_edge").getD i 0 = 0) →
      ((calc_indices s).getBandPixels "NDRE").getD i 0 = band_nodata)
    ∧ (i < ((calc_indices s).getBandPixels "EVI").length →
      ((s.getBandPixels "blue").getD i 0 = band_nodata ∨
       (s.getBandPixels "red").getD i 0 = band_nodata ∨
       (s.getBandPixels "nir").getD i 0 = band_nodata ∨
       (s.getBandPixels "nir").getD i 0 + 6 * (s.getBandPixels "red").getD i 0
         - (7.5 : ℚ) * (s.getBandPixels "blue").getD i 0 + 1 = 0) →
      ((calc_indices s).getBandPixels "EVI").getD i 0 = band_nodata) := by
  refine ⟨?_, ?_, ?_⟩
  · rw [calc_indices_NDVI_pixels s hv]
    intro hi hcond
    rw [zipWith_getD ndvi_px 0 0 0 _ _ i hi, ndvi_px, if_pos hcond]
  · rw [calc_indices_NDRE_pixels s hr]
    intro hi hcond
    rw [zipWith_getD ndre_px 0 0 0 _ _ i hi, ndre_px, if_pos hcond]
  · rw [calc_indices_EVI_pixels s he]
    intro hi hcond
    rw [zip3With_getD evi_px 0 0 0 0 _ _ _ i hi, evi_px]
    exact if_pos hcond

theorem C4_index_nodata_policy_witness :
    ((calc_indices exSceneIdx).getBandPixels "NDVI").getD 1 0 = band_nodata ∧
    ((calc_indices exSceneIdx).getBandPixels "NDRE").getD 1 0 = band_nodata ∧
    ((calc_indices exSceneIdx).getBandPixels "EVI").getD 1 0 = band_nodata := by
  have h := C4_index_nodata_policy exSceneIdx 1 (by decide) (by decide)
    (by decide)
  refine ⟨h.1 ?_ ?_, h.2.1 ?_ ?_, h.2.2 ?_ ?_⟩
  · rw [calc_indices_NDVI_pixels exSceneIdx (by decide)]
    decide
  · decide
  · rw [calc_indices_NDRE_pixels exSceneIdx (by decide)]
    decide
  · decide
  · rw [calc_indices_EVI_pixels exSceneIdx (by decide)]
    decide
  · decide

/-- C1: the Quality Filter assigns the disposition by the first matching
rule: blackfill first, then parcel-level invalid fraction times 100 strictly
above the threshold, else used; a blackfilled scene is never classified as
too cloudy and a scene exactly at the threshold is kept.  The recorded
percentage is the invalid-pixel fraction times 100, and the scene loop
treats a single scene exactly according to this classification. -/
theorem C1_quality_filter_decision_order (thr : ℚ) (s : Sentinel2) :
    (s.is_blackfilled = true → classify thr s = "No [blackfill]")
    ∧ (s.is_blackfilled = false →
        s.get_cloudy_pixel_percentage scl_cloud_classes > thr →
        classify thr s = "No [clouds]")
    ∧ (s.is_blackfilled = false →
        s.get_cloudy_pixel_percentage scl_cloud_classes ≤ thr →
        classify thr s = "yes")
    ∧ (s.is_blackfilled = true → classify thr s ≠ "No [clouds]")
    ∧ s.get_cloudy_pixel_percentage scl_cloud_classes =
        100 * (((scl_mask scl_cloud_classes s.scl.pixels).count false : ℚ) /
          ((scl_mask scl_cloud_classes s.scl.pixels).length : ℚ))
    ∧ (∀ (md : List MetaRow) (dels : List Nat) (sid : Nat),
        sceneLoop thr [(sid, s)] md dels =
          if classify thr s = "yes" then (md, dels, [(sid, calc_indices s)])
          else (markRows md sid (classify thr s), dels ++ [sid], [(sid, s)])) := by
  refine ⟨?_, ?_, ?_, ?_, rfl, ?_⟩
  · intro hb
    simp [classify, hb]
  · intro hb hgt
    simp [classify, hb, hgt]
  · intro hb hle
    simp [classify, hb, not_lt.mpr hle]
  · intro hb
    simp [classify, hb]
  · intro md dels sid
    by_cases hb : s.is_blackfilled
    · simp [sceneLoop, classify, hb]
    · simp only [Bool.not_eq_true] at hb
      by_cases hc : s.get_cloudy_pixel_percentage scl_cloud_classes > thr
      · simp [sceneLoop, classify, hb, hc]
      · simp [sceneLoop, classify, hb, hc]

theorem C1_quality_filter_decision_order_witness :
    exSceneCloudy.is_blackfilled = false ∧
    exSceneCloudy.get_cloudy_pixel_percentage scl_cloud_classes > 20 ∧
    classify 20 exSceneCloudy = "No [clouds]" ∧
    exSceneClear.is_blackfilled = false ∧
    exSceneClear.get_cloudy_pixel_percentage scl_cloud_classes ≤ 0 ∧
    classify 0 exSceneClear = "yes" := by
  have hpc : exSceneCloudy.get_cloudy_pixel_percentage scl_cloud_classes
      = 50 := by
    simp [Sentinel2.get_cloudy_pixel_percentage, scl_mask, scl_cloud_classes,
      scl_nodata, exSceneCloudy, List.count]
    norm_num
  have hcl : exSceneClear.get_cloudy_pixel_percentage scl_cloud_classes
      = 0 := by
    simp [Sentinel2.get_cloudy_pixel_percentage, scl_mask, scl_cloud_classes,
      scl_nodata, exSceneClear, List.count]
  refine ⟨by decide, by rw [hpc]; norm_num,
    (C1_quality_filter_decision_order 20 exSceneCloudy).2.1 (by decide)
      (by rw [hpc]; norm_num),
    by decide, by rw [hcl],
    (C1_quality_filter_decision_order 0 exSceneClear).2.2.1 (by decide)
      (by rw [hcl])⟩

lemma markRows_status (P : String → Prop) (md : List MetaRow) (sid : Nat)
    (st : String) (hst : P st) (h : ∀ r ∈ md, P r.scene_used) :
    ∀ r ∈ markRows md sid st, P r.scene_used := by
  intro r hr
  simp only [markRows, List.mem_map] at hr
  obtain ⟨r0, hr0, rfl⟩ := hr
  by_cases hm : minuteKey r0.sensing_time == minuteKey sid
  · simpa [hm] using hst
  · simpa [hm] using h r0 hr0

lemma sceneLoop_status (P : String → Prop) (thr : ℚ)
    (hbf : P "No [blackfill]") (hcl : P "No [clouds]") :
    ∀ (l : List (Nat × Sentinel2)) (md : List MetaRow) (dels : List Nat),
      (∀ r ∈ md, P r.scene_used) →
      ∀ r ∈ (sceneLoop thr l md dels).1, P r.scene_used := by
  intro l
  induction l with
  | nil => intro md dels h; simpa [sceneLoop] using h
  | cons e rest ih =>
    intro md dels h
    obtain ⟨sid, scene⟩ := e
    by_cases hb : scene.is_blackfilled
    · simpa [sceneLoop, hb] using
        ih _ _ (markRows_status P md sid _ hbf h)
    · simp only [Bool.not_eq_true] at hb
      by_cases hc : scene.get_cloudy_pixel_percentage scl_cloud_classes > thr
      · simpa [sceneLoop, hb, hc] using
          ih _ _ (markRows_status P md sid _ hcl h)
      · simpa [sceneLoop, hb, hc] using ih _ _ h

lemma sceneLoop_md_length (thr : ℚ) :
    ∀ (l : List (Nat × Sentinel2)) (md : List MetaRow) (dels : List Nat),
      (sceneLoop thr l md dels).1.length = md.length := by
  intro l
  induction l with
  | nil => intro md dels; rfl
  | cons e rest ih =>
    intro md dels
    obtain ⟨sid, scene⟩ := e
    by_cases hb : scene.is_blackfilled
    · simp [sceneLoop, hb, ih, markRows]
    · simp only [Bool.not_eq_true] at hb
      by_cases hc : scene.get_cloudy_pixel_percentage scl_cloud_classes > thr
      · simp [sceneLoop, hb, hc, ih, markRows]
      · simp [sceneLoop, hb, hc, ih]

lemma countP_status_partition :
    ∀ (l : List MetaRow),
      (∀ r ∈ l, r.scene_used = "yes" ∨ r.scene_used = "No [blackfill]" ∨
        r.scene_used = "No [clouds]") →
      l.countP (fun r => r.scene_used == "yes")
        + l.countP (fun r => r.scene_used == "No [blackfill]")
        + l.countP (fun r => r.scene_used == "No [clouds]") = l.length := by
  intro l
  induction l with
  | nil => intro _; rfl
  | cons a t ih =>
    intro h
    have ht := ih (fun r hr => h r (List.mem_cons_of_mem a hr))
    have ha := h a (List.mem_cons_self a t)
    simp only [List.countP_cons, List.length_cons]
    rcases ha with ha | ha | ha <;> simp [ha] <;> omega

/-- C2: exactly one disposition is recorded per candidate scene: the rows of
the metadata table each carry one status from used, blackfill-rejected or
cloud-rejected, their counts sum to the table length, and the table length
equals the number of candidate rows returned by the catalogue. -/
theorem C2_disposition_partition (thr : ℚ) (m : Mapper) :
    (extract_s2_data thr m).metadata.countP (fun r => r.scene_used == "yes")
      + (extract_s2_data thr m).metadata.countP
          (fun r => r.scene_used == "No [blackfill]")
      + (extract_s2_data thr m).metadata.countP
          (fun r => r.scene_used == "No [clouds]")
      = (extract_s2_data thr m).metadata.length
    ∧ (extract_s2_data thr m).metadata.length = m.metadata.length := by
  constructor
  · apply countP_status_partition
    have h0 : ∀ r ∈ m.metadata.map
        (fun r => { r with scene_used := "yes" }),
        r.scene_used = "yes" ∨ r.scene_used = "No [blackfill]" ∨
          r.scene_used = "No [clouds]" := by
      intro r hr
      simp only [List.mem_map] at hr
      obtain ⟨r0, _, rfl⟩ := hr
      exact Or.inl rfl
    intro r hr
    refine sceneLoop_status
      (fun st => st = "yes" ∨ st = "No [blackfill]" ∨ st = "No [clouds]")
      thr (Or.inr (Or.inl rfl)) (Or.inr (Or.inr rfl)) m.data _ [] h0 r ?_
    simpa [extract_s2_data] using hr
  · simpa [extract_s2_data] using
      sceneLoop_md_length thr m.data
        (m.metadata.map (fun r => { r with scene_used := "yes" })) []

lemma sceneLoop_data_fst (thr : ℚ) :
    ∀ (l : List (Nat × Sentinel2)) (md : List MetaRow) (dels : List Nat),
      (sceneLoop thr l md dels).2.2.map Prod.fst = l.map Prod.fst := by
  intro l
  induction l with
  | nil => intro md dels; rfl
  | cons e rest ih =>
    intro md dels
    obtain ⟨sid, scene⟩ := e
    by_cases hb : scene.is_blackfilled
    · simp [sceneLoop, hb, ih]
    · simp only [Bool.not_eq_true] at hb
      by_cases hc : scene.get_cloudy_pixel_percentage scl_cloud_classes > thr
      · simp [sceneLoop, hb, hc, ih]
      · simp [sceneLoop, hb, hc, ih]

/-- C3: the kept scene series exposed downstream is in ascending acquisition
timestamp order with no duplicate timestamps, provided the loaded scene
collection was in that order (the collection is keyed by timestamp): the
filtering loop only removes entries and never reorders them. -/
theorem C3_kept_series_ordered (thr : ℚ) (m : Mapper)
    (h : (m.data.map Prod.fst).Pairwise (fun a b => a < b)) :
    ((extract_s2_data thr m).data.map Prod.fst).Pairwise
      (fun a b => a < b) := by
  have hsub : List.Sublist ((extract_s2_data thr m).data.map Prod.fst)
      ((sceneLoop thr m.data
        (m.metadata.map (fun r => { r with scene_used := "yes" })) []).2.2.map
        Prod.fst) := by
    simp only [extract_s2_data]
    exact (List.filter_sublist _).map Prod.fst
  rw [sceneLoop_data_fst] at hsub
  exact List.Pairwise.sublist hsub h

theorem C3_kept_series_ordered_witness :
    ((extract_s2_data 20 exMapper).data.map Prod.fst).Pairwise
      (fun a b => a < b) :=
  C3_kept_series_ordered 20 exMapper (by decide)

/-- C7: when the catalogue returns zero candidate scenes the pipeline
reaches a valid terminal state: the kept series is empty, the reporting
table is empty, no export call is made, and plotting is not attempted (the
per-parcel run is a total function, so no crash is possible). -/
theorem C7_empty_catalog_terminal (thr : ℚ) (m : Mapper)
    (hmd : m.metadata = []) (hdat : m.data = []) :
    (process_parcel thr m).kept = []
    ∧ (process_parcel thr m).exports = []
    ∧ (process_parcel thr m).plotted = false
    ∧ (extract_s2_data thr m).metadata = [] := by
  obtain ⟨md, dat⟩ := m
  cases hmd
  cases hdat
  refine ⟨rfl, rfl, rfl, rfl⟩

theorem C7_empty_catalog_terminal_witness :
    (process_parcel 20 exMapperEmpty).kept = []
    ∧ (process_parcel 20 exMapperEmpty).exports = []
    ∧ (process_parcel 20 exMapperEmpty).plotted = false
    ∧ (extract_s2_data 20 exMapperEmpty).metadata = [] :=
  C7_empty_catalog_terminal 20 exMapperEmpty rfl rfl

/-- C8: the Scene Classification Mask is true at a pixel exactly when the
classification code is neither in the configured invalid set nor the
reserved no-data code, the no-data code is always invalid regardless of the
configured set, and the configured default set of the source is
[3, 8, 9, 10, 11]. -/
theorem C8_scl_mask_spec (invalid : List Nat) (codes : List Nat) (i : Nat)
    (hi : i < codes.length) :
    ((scl_mask invalid codes).getD i false = true ↔
      (codes.getD i 0 ∉ invalid ∧ codes.getD i 0 ≠ scl_nodata))
    ∧ (codes.getD i 0 = scl_nodata →
        (scl_mask invalid codes).getD i false = false)
    ∧ scl_cloud_classes = [3, 8, 9, 10, 11] := by
  have hmap : (scl_mask invalid codes).getD i false =
      (!(invalid.contains (codes.getD i 0)) &&
        !(codes.getD i 0 == scl_nodata)) := by
    induction codes generalizing i with
    | nil => simp at hi
    | cons c cs ih =>
      cases i with
      | zero => rfl
      | succ i =>
        simp only [scl_mask, List.map_cons, List.getD_cons_succ] at *
        exact ih i (by simpa using hi)

  refine ⟨?_, ?_, rfl⟩
  · rw [hmap]
    simp [List.contains_iff_exists_mem_beq]
  · intro h0
    rw [hmap, h0]
    simp [scl_nodata]

theorem C8_scl_mask_spec_witness :
    ((scl_mask scl_cloud_classes [0, 4, 8]).getD 0 false = false)
    ∧ ((scl_mask scl_cloud_classes [0, 4, 8]).getD 1 false = true) :=
  ⟨(C8_scl_mask_spec scl_cloud_classes [0, 4, 8] 0 (by decide)).2.1 rfl,
   ((C8_scl_mask_spec scl_cloud_classes [0, 4, 8] 1 (by decide)).1).mpr
     (by decide)⟩

/-- C9: in both the export and plotting stages the date attached to the
scene at a given position of the kept series is the element at that position
of the list of used sensing dates; any position at or beyond the length of
that list yields the literal No Date instead of an error, and the
association is purely positional: it depends only on the length of the kept
collection, never on the scene identifiers. -/
theorem C9_positional_date_association (md : List MetaRow) (idx : Nat) :
    ((sensing_dates_with_scene_used md).length ≤ idx →
      sensing_date_string md idx = "No Date")
    ∧ (idx < (sensing_dates_with_scene_used md).length →
      sensing_date_string md idx =
        strfdate ((sensing_dates_with_scene_used md).getD idx 0))
    ∧ (∀ (res res2 : List (Nat × Sentinel2)), res.length = res2.length →
      geotiff_dates res md = geotiff_dates res2 md) := by
  refine ⟨?_, ?_, ?_⟩
  · intro hle
    simp [sensing_date_string, Nat.not_lt.mpr hle]
  · intro hlt
    simp [sensing_date_string, hlt]
  · intro res res2 hlen
    simp [geotiff_dates, hlen]

theorem C9_positional_date_association_witness :
    sensing_date_string [exRow] 3 = "No Date"
    ∧ sensing_date_string [exRow] 0 =
        strfdate ((sensing_dates_with_scene_used [exRow]).getD 0 0)
    ∧ geotiff_dates [(60, exSceneClear)] [exRow] =
        geotiff_dates [(999, exSceneBlack)] [exRow] :=
  ⟨(C9_positional_date_association [exRow] 3).1 (by decide),
   (C9_positional_date_association [exRow] 0).2.1 (by decide),
   (C9_positional_date_association [exRow] 0).2.2
     [(60, exSceneClear)] [(999, exSceneBlack)] rfl⟩

/-- C10: a rejected scene is recorded by updating exactly the metadata rows
whose sensing time, truncated to minute precision, equals the scene
identifier truncated the same way; when no row matches, every row keeps its
initial used disposition even though the scene is rejected and removed from
the kept set. -/
theorem C10_minute_precision_disposition (thr : ℚ) (sid : Nat)
    (s : Sentinel2) (md0 : List MetaRow) :
    (s.is_blackfilled = true →
      (extract_s2_data thr { metadata := md0, data := [(sid, s)] }).metadata =
        md0.map (fun r =>
          if minuteKey r.sensing_time == minuteKey sid then
            { r with scene_used := "No [blackfill]" }
          else { r with scene_used := "yes" })
      ∧ (extract_s2_data thr { metadata := md0, data := [(sid, s)] }).data
          = [])
    ∧ (s.is_blackfilled = false →
       s.get_cloudy_pixel_percentage scl_cloud_classes > thr →
      (extract_s2_data thr { metadata := md0, data := [(sid, s)] }).metadata =
        md0.map (fun r =>
          if minuteKey r.sensing_time == minuteKey sid then
            { r with scene_used := "No [clouds]" }
          else { r with scene_used := "yes" })
      ∧ (extract_s2_data thr { metadata := md0, data := [(sid, s)] }).data
          = [])
    ∧ (s.is_blackfilled = true →
       (∀ r ∈ md0, minuteKey r.sensing_time ≠ minuteKey sid) →
      (extract_s2_data thr { metadata := md0, data := [(sid, s)] }).metadata =
        md0.map (fun r => { r with scene_used := "yes" })) := by
  refine ⟨?_, ?_, ?_⟩
  · intro hb
    constructor
    · simp only [extract_s2_data, sceneLoop, hb, if_true, markRows,
        List.map_map]
      refine List.map_congr_left ?_
      intro r _
      by_cases hm : minuteKey r.sensing_time = minuteKey sid
      · simp [hm]
      · simp [hm]
    · simp [extract_s2_data, sceneLoop, hb, List.filter]
  · intro hb hc
    constructor
    · simp only [extract_s2_data, sceneLoop, hb, hc, if_true,
        Bool.false_eq_true, if_false, markRows, List.map_map]
      refine List.map_congr_left ?_
      intro r _
      by_cases hm : minuteKey r.sensing_time = minuteKey sid
      · simp [hm]
      · simp [hm]
    · simp [extract_s2_data, sceneLoop, hb, hc, List.filter]
  · intro hb hnone
    simp only [extract_s2_data, sceneLoop, hb, if_true, markRows,
      List.map_map]
    refine List.map_congr_left ?_
    intro r hr
    simp [hnone r hr]

theorem C5_masking_postcondition_witness :
    ((preprocess_sentinel2_scenes exSceneCloudy 10).getBand
      "nir").pixels.getD 1 0 = band_nodata
    ∧ (preprocess_sentinel2_scenes exSceneCloudy 10).scl.pixels.getD 1 0 =
        scl_nodata := by
  have h := C5_masking_postcondition exSceneCloudy 10
  exact ⟨h.1 ("nir", (preprocess_sentinel2_scenes exSceneCloudy 10).getBand
      "nir") (by decide) 1 (by decide) (by decide),
    h.2 1 (by decide) (by decide)⟩

theorem C10_minute_precision_disposition_witness :
    (extract_s2_data 20
      { metadata := [exRowFar], data := [(61, exSceneBlack)] }).metadata =
        [{ exRowFar with scene_used := "yes" }]
    ∧ (extract_s2_data 20
      { metadata := [exRowFar], data := [(61, exSceneBlack)] }).data = [] := by
  have h := C10_minute_precision_disposition 20 61 exSceneBlack [exRowFar]
  have hb : exSceneBlack.is_blackfilled = true := by decide
  refine ⟨?_, (h.1 hb).2⟩
  simpa using h.2.2 hb (by decide)
